import Mathlib

/-! Command execution gateway and native session manager (`src/server/server.js`)

A shallow embedding of the command gateway (`POST /api/exec`, `uac:approve`,
`uac:deny`) and of the native session manager (`native:launch`, `native:kill`,
`launchXpra`, `launchSunshine`) of `src/server/server.js`, followed by theorems
about them.

Conventions of the embedding:

* JavaScript strings are Lean strings; `String.prototype.includes` and the
  regular expression `/port (\d+)/` only look for ASCII text, so working on
  code points instead of UTF-16 units finds the same occurrences.
* A `Map` keyed by strings is an association list (`mapGet`, `mapSet`,
  `mapDelete`).
* The mutable globals and the observable effects are the fields of `Server`:
  the two maps, the log of `socket.emit` calls, the log of `exec` calls and
  the log of `process.kill` calls.
* Asynchronous callbacks (the completion callback of `exec`, the `exit`
  listener, the `setTimeout` body) are separate functions on `Server`; the
  variables their closures capture are the fields of `Proc`.
* What the environment decides (the value of `Math.random()`, the process id,
  the content of `app.properties.json`, the outcome of a process) is an
  argument.
* `child_process.exec` validates its command line before it starts anything
  and throws on the empty string and on a string that holds a NUL character
  (`execThrows`); no handler of the file catches that, so the handler stops
  where `exec` is called. Limits of the operating system on starting a
  process (the length of a command line, the number of processes) are not part
  of the embedding.
-/

namespace FrutigerServer

/-! ## JavaScript values -/

/-- The JavaScript values that the payload of `native:launch` and the fields of
`app.properties.json` are taken from: `undefined` (absent), `null`, booleans
and strings. -/
inductive JSVal
  | undefined
  | null
  | bool (b : Bool)
  | str (s : String)
  deriving DecidableEq, Repr

/-- Truthiness (`ToBoolean`): `undefined`, `null`, `false` and `""` are falsy. -/
def JSVal.truthy : JSVal → Bool
  | .undefined => false
  | .null => false
  | .bool b => b
  | .str s => s != ""

/-- The operator `a || b`: `a` when it is truthy, `b` otherwise. -/
def JSVal.or (a b : JSVal) : JSVal :=
  if a.truthy then a else b

/-- The text a value contributes to a template literal (`ToString`). -/
def JSVal.template : JSVal → String
  | .undefined => "undefined"
  | .null => "null"
  | .bool true => "true"
  | .bool false => "false"
  | .str s => s

/-! ## Strings -/

/-- The first list is a prefix of the second. -/
def isPrefixChars : List Char → List Char → Bool
  | [], _ => true
  | _ :: _, [] => false
  | a :: as, b :: bs => a == b && isPrefixChars as bs

/-- The list `needle` occurs in the list, as a contiguous block. -/
def includesChars (needle : List Char) : List Char → Bool
  | [] => needle.isEmpty
  | c :: cs => isPrefixChars needle (c :: cs) || includesChars needle cs

/-- The call `s.includes(sub)`. -/
def includes (s sub : String) : Bool :=
  includesChars sub.data s.data

/-- The argument check of `child_process.exec(command, ...)`: the call throws,
and starts no process, when `command` is empty or holds a NUL character. -/
def execThrows (command : String) : Bool :=
  command == "" || command.data.contains (Char.ofNat 0)

/-- Removes the prefix `p` from a list, when the list starts with it. -/
def stripPrefixChars : List Char → List Char → Option (List Char)
  | [], s => some s
  | _ :: _, [] => none
  | a :: as, b :: bs => if a = b then stripPrefixChars as bs else none

/-- The text `"port "` of the regular expression `/port (\d+)/`. -/
def portWord : List Char := ['p', 'o', 'r', 't', ' ']

/-- The greedy `\d+` at the start of a list: the longest run of `0`..`9`. -/
def digitRun (cs : List Char) : List Char :=
  cs.takeWhile Char.isDigit

/-- Tries `/port (\d+)/` at the start of the list; the result is group 1. -/
def matchPortAt (s : List Char) : Option (List Char) :=
  match stripPrefixChars portWord s with
  | some rest => if (digitRun rest).isEmpty then none else some (digitRun rest)
  | none => none

/-- Tries `/port (\d+)/` at each position from the left; the first position
where it matches decides. -/
def matchPortFrom : List Char → Option (List Char)
  | [] => none
  | c :: cs =>
    match matchPortAt (c :: cs) with
    | some ds => some ds
    | none => matchPortFrom cs

/-- The value `stdout.match(/port (\d+)/)`, reduced to its group 1 (`match[1]`);
`none` when the match is `null`. -/
def matchPort (stdout : String) : Option String :=
  (matchPortFrom stdout.data).map String.mk

/-! ## Maps -/

/-- The call `m.get(k)` of a `Map`. -/
def mapGet {α : Type} : List (String × α) → String → Option α
  | [], _ => none
  | (k', v) :: rest, k => if k' = k then some v else mapGet rest k

/-- The call `m.set(k, v)` of a `Map`: replaces the value of an existing key,
adds the key at the end otherwise. -/
def mapSet {α : Type} : List (String × α) → String → α → List (String × α)
  | [], k, v => [(k, v)]
  | (k', v') :: rest, k, v =>
    if k' = k then (k, v) :: rest else (k', v') :: mapSet rest k v

/-- The call `m.delete(k)` of a `Map`. -/
def mapDelete {α : Type} (m : List (String × α)) (k : String) : List (String × α) :=
  m.filter (fun p => p.1 != k)

/-! ## State -/

/-- The events the server emits on a socket. -/
inductive Event
  | uacRequired (command : String) (risks : List String)
  | appError (appKey instanceId error : String)
  | appStream (instanceId appKey type url : String)
  deriving DecidableEq, Repr

/-- The state a socket object carries for the gateway: `socket.uacApproved`.
The property is not set when the socket connects; unset and `false` behave
alike under `!socket.uacApproved`, and both are `false` here. -/
structure Socket where
  uacApproved : Bool
  deriving DecidableEq, Repr

/-- A value of `nativeSessions`: `{ appKey, pid, type, url, display }`.
`pid` is `none` when `exec` could not start the process (`proc.pid` is
`undefined`); `display` is only set by `launchXpra`. -/
structure Session where
  appKey : String
  pid : Option Nat
  type : String
  url : String
  display : Option String
  deriving DecidableEq, Repr

/-- The mutable globals of the server and the effects it has had. -/
structure Server where
  -- the map `socketClients`, from `socket.id` to the socket
  socketClients : List (String × Socket)
  -- the map `nativeSessions`, from `instanceId` to the session
  nativeSessions : List (String × Session)
  -- every `socket.emit` so far, oldest first, with the id of the socket
  emitted : List (String × Event)
  -- the command line of every `exec` call so far, oldest first
  spawned : List String
  -- the pid of every `process.kill(session.pid)` call with a pid, oldest first
  killed : List Nat
  deriving DecidableEq, Repr

/-- The answers of `POST /api/exec`: the 403 answer `{ error }`, the answers
`{ pending: true }` and `{ success: true }`, and no answer at all, when the
handler threw before it answered. -/
inductive Response
  | forbidden (error : String)
  | pending
  | success
  | noResponse
  deriving DecidableEq, Repr

/-! ## The command gateway -/

/-- The module-level constant `BLACKLISTED_COMMANDS` (lines 223-228). No code
reads it. -/
def BLACKLISTED_COMMANDS : List String :=
  ["rm -rf /", ":()\x7b :|:& \x7d;:", "mkfs", "dd if="]

/-- The module-level constant `RISKY_KEYWORDS` (lines 230-242). No code reads
it. -/
def RISKY_KEYWORDS : List String :=
  ["sudo", "rm", "chmod", "chown", "apt", "dnf", "pacman", "systemctl", "service",
    "kill", "cat /dev"]

/-- The local `blacklistedCommands` of the `/api/exec` handler (lines 254-257). -/
def blacklistedCommands : List String :=
  ["rm -rf /", ":()\x7b :|:& \x7d;:"]

/-- The local `riskyPatterns` of the `/api/exec` handler (line 264). -/
def riskyPatterns : List String :=
  ["sudo", "rm", "dd", "mount", "chmod", "chown"]

/-- The test `blacklistedCommands.some(bad => command.includes(bad))`. -/
def isBlacklisted (command : String) : Bool :=
  blacklistedCommands.any (fun bad => includes command bad)

/-- The list `riskyPatterns.filter(r => command.includes(r))`. -/
def risksOf (command : String) : List String :=
  riskyPatterns.filter (fun r => includes command r)

/-- The handler of `POST /api/exec` (lines 244-297), for the body
`{ command }` and the header `x-socket-id`. A missing header looks up
`undefined`, which is no key of the map, like an unknown id. The flag is reset
before `exec` is called; when `exec` throws, no process is started and
`res.json` is not reached. The completion callback of `exec` only emits
`exec:result` and is left out. -/
def apiExec (srv : Server) (socketId command : String) : Response × Server :=
  match mapGet srv.socketClients socketId with
  | none => (.forbidden "No active session", srv)
  | some socket =>
    if isBlacklisted command then
      (.forbidden "Command permanently blocked", srv)
    else
      let risks := risksOf command
      if risks.length > 0 && !socket.uacApproved then
        (.pending,
          { srv with emitted := srv.emitted ++ [(socketId, .uacRequired command risks)] })
      else if execThrows command then
        (.noResponse,
          { srv with
            socketClients :=
              mapSet srv.socketClients socketId { socket with uacApproved := false } })
      else
        (.success,
          { srv with
            socketClients := mapSet srv.socketClients socketId { socket with uacApproved := false }
            spawned := srv.spawned ++ [command] })

/-- The assignment `socket.uacApproved = b` on the socket with the given id. -/
def setApproved (srv : Server) (socketId : String) (b : Bool) : Server :=
  match mapGet srv.socketClients socketId with
  | none => srv
  | some socket =>
    { srv with socketClients := mapSet srv.socketClients socketId { socket with uacApproved := b } }

/-- The listener of `uac:approve` (lines 312-314). -/
def uacApprove (srv : Server) (socketId : String) : Server :=
  setApproved srv socketId true

/-- The listener of `uac:deny` (lines 316-318). -/
def uacDeny (srv : Server) (socketId : String) : Server :=
  setApproved srv socketId false

/-- The listener of `connection` (lines 304-306), as far as the map goes. -/
def connect (srv : Server) (socketId : String) : Server :=
  { srv with socketClients := mapSet srv.socketClients socketId { uacApproved := false } }

/-- The listener of `disconnect` (lines 308-310). -/
def disconnect (srv : Server) (socketId : String) : Server :=
  { srv with socketClients := mapDelete srv.socketClients socketId }

/-- The signals of one connection that reach the gateway. -/
inductive Signal
  | approve
  | deny
  | exec (command : String)
  deriving DecidableEq, Repr

/-- The server after one signal of the connection `socketId`. -/
def step (socketId : String) (srv : Server) : Signal → Server
  | .approve => uacApprove srv socketId
  | .deny => uacDeny srv socketId
  | .exec command => (apiExec srv socketId command).2

/-- The server after a sequence of signals of the connection `socketId`. -/
def run (socketId : String) (srv : Server) (sigs : List Signal) : Server :=
  sigs.foldl (step socketId) srv

/-- The number of `uac:approve` signals in a sequence. -/
def approvals (sigs : List Signal) : Nat :=
  sigs.countP (fun s => s == Signal.approve)

/-- The number of spawned command lines that match a risk token. -/
def riskySpawns (spawned : List String) : Nat :=
  spawned.countP (fun c => (risksOf c).length > 0)

/-! ## The native session manager -/

/-- The object read from `app.properties.json` (`readJSON(propsPath, {})`), as
far as `native:launch` uses it; a field the file does not have is
`undefined`, and an unreadable file gives `{}`, both fields `undefined`. -/
structure Rules where
  command : JSVal
  stream : JSVal
  deriving DecidableEq, Repr

/-- The payload `{ appKey, instanceId, command, stream }` of `native:launch`. -/
structure LaunchMsg where
  appKey : String
  instanceId : String
  command : JSVal
  stream : JSVal
  deriving DecidableEq, Repr

/-- A value returned by `Math.random()`: the number `num / 2 ^ exp`, where
`num < 2 ^ exp`. Every double in [0, 1) is of this form. -/
structure RandomDraw where
  num : Nat
  exp : Nat
  deriving DecidableEq, Repr

/-- The quotient `n / d` rounded to the nearest integer, a tie going to the
even one (the rounding of binary64 arithmetic). -/
def roundHalfEven (n d : Nat) : Nat :=
  if 2 * (n % d) < d then n / d
  else if d < 2 * (n % d) then n / d + 1
  else if (n / d) % 2 = 0 then n / d
  else n / d + 1

/-- The value `Math.floor(Math.random() + 100)` for the draw `r`. The exact sum
`r + 100` lies in [100, 101), where the doubles are the multiples of
`2 ^ (-46)`; the sum JavaScript computes is the exact sum rounded to the nearest
of them, and `Math.floor` takes its integer part. -/
def floorRandomPlus100 (r : RandomDraw) : Nat :=
  let exact := r.num + 100 * 2 ^ r.exp
  let rounded :=
    if r.exp ≤ 46 then exact * 2 ^ (46 - r.exp)
    else roundHalfEven exact (2 ^ (r.exp - 46))
  rounded / 2 ^ 46

/-- The display of `launchXpra` (line 404), the template literal
`:` followed by `100 + Math.floor(Math.random() + 100)`. -/
def xpraDisplay (r : RandomDraw) : String :=
  ":" ++ toString (100 + floorRandomPlus100 r)

/-- The variables that the callbacks registered by `launchXpra` and
`launchSunshine` capture: the socket, `appKey`, `instanceId`, `proc.pid` and,
for `launchXpra`, `display`. -/
structure Proc where
  socketId : String
  appKey : String
  instanceId : String
  pid : Option Nat
  display : Option String
  deriving DecidableEq, Repr

/-- The command line `cmd` of `launchXpra` (line 405). -/
def xpraCmd (display : String) (rules : Rules) : String :=
  "xpra start " ++ display ++ " --start-child=\"" ++ rules.command.template
    ++ "\" --html=on --bind-tcp=127.0.0.1:0"

/-- The synchronous part of `launchXpra` (lines 403-409, 443): computes the
display, hands the command line to `exec` and registers the two callbacks,
which the second component holds. `pid` is the `proc.pid` of the child. When
`exec` throws, nothing is started and no callback is registered. -/
def launchXpra (srv : Server) (appKey : String) (rules : Rules) (socketId instanceId : String)
    (r : RandomDraw) (pid : Option Nat) : Server × Option Proc :=
  let display := xpraDisplay r
  let cmd := xpraCmd display rules
  if execThrows cmd then (srv, none)
  else
    ({ srv with spawned := srv.spawned ++ [cmd] },
      some { socketId := socketId, appKey := appKey, instanceId := instanceId, pid := pid,
             display := some display })

/-- The completion callback of `exec` in `launchXpra` (lines 409-441), called
with `err` set (`err = true`) or not, and with the output of the process. -/
def xpraCallback (srv : Server) (p : Proc) (err : Bool) (stdout : String) : Server :=
  if err then
    { srv with emitted := srv.emitted ++
        [(p.socketId, .appError p.appKey p.instanceId "Failed to launch Xpra. Is Xpra installed?")] }
  else
    match matchPort stdout with
    | none =>
      { srv with emitted := srv.emitted ++
          [(p.socketId, .appError p.appKey p.instanceId "Failed to parse Xpra port")] }
    | some port =>
      let url := "http://localhost:" ++ port
      { srv with
        nativeSessions := mapSet srv.nativeSessions p.instanceId
          { appKey := p.appKey, pid := p.pid, type := "xpra", url := url, display := p.display }
        emitted := srv.emitted ++ [(p.socketId, .appStream p.instanceId p.appKey "xpra" url)] }

/-- The `exit` listener of `launchXpra` (lines 443-446). -/
def xpraExit (srv : Server) (p : Proc) : Server :=
  { srv with nativeSessions := mapDelete srv.nativeSessions p.instanceId }

/-- The url `sunshineUrl` of `launchSunshine` (line 450). -/
def sunshineUrl : String := "http://localhost:47989"

/-- The command line `cmd` of `launchSunshine` (line 451). -/
def sunshineCmd (rules : Rules) : String :=
  "sunshine \"" ++ rules.command.template ++ "\""

/-- The synchronous part of `launchSunshine` (lines 449-473, 476, 486): hands
the command line to `exec`, stores the session and registers the callbacks,
which the second component holds. When `exec` throws, nothing is started, no
session is stored and no callback or timer is registered. -/
def launchSunshine (srv : Server) (appKey : String) (rules : Rules) (socketId instanceId : String)
    (pid : Option Nat) : Server × Option Proc :=
  let cmd := sunshineCmd rules
  if execThrows cmd then (srv, none)
  else
    ({ srv with
        spawned := srv.spawned ++ [cmd]
        nativeSessions := mapSet srv.nativeSessions instanceId
          { appKey := appKey, pid := pid, type := "sunshine", url := sunshineUrl,
            display := none } },
      some { socketId := socketId, appKey := appKey, instanceId := instanceId, pid := pid,
             display := none })

/-- The completion callback of `exec` in `launchSunshine` (lines 455-465). -/
def sunshineCallback (srv : Server) (p : Proc) (err : Bool) : Server :=
  if err then
    { srv with emitted := srv.emitted ++
        [(p.socketId, .appError p.appKey p.instanceId
          "Failed to launch Sunshine. Is Sunshine installed and configured?")] }
  else srv

/-- The body of the `setTimeout` of `launchSunshine` (lines 476-484). -/
def sunshineTimer (srv : Server) (p : Proc) : Server :=
  { srv with emitted := srv.emitted ++
      [(p.socketId, .appStream p.instanceId p.appKey "sunshine" sunshineUrl)] }

/-- The `exit` listener of `launchSunshine` (lines 486-489). -/
def sunshineExit (srv : Server) (p : Proc) : Server :=
  { srv with nativeSessions := mapDelete srv.nativeSessions p.instanceId }

/-- The backend resolution of `native:launch` (lines 327-328): `rules.command`
becomes `rules.command || command` and `rules.stream` becomes
`stream || rules.stream`. -/
def resolveRules (rules : Rules) (msg : LaunchMsg) : Rules :=
  { command := rules.command.or msg.command, stream := msg.stream.or rules.stream }

/-- The listener of `native:launch` (lines 320-341) on the socket `socketId`.
`readProps` gives the parsed `app.properties.json` of an application; `r` and
`pid` are the draw of `Math.random()` and the process id that a launch uses.
The second component holds the callbacks a launch has registered. -/
def nativeLaunch (srv : Server) (readProps : String → Rules) (socketId : String)
    (msg : LaunchMsg) (r : RandomDraw) (pid : Option Nat) : Server × Option Proc :=
  let rules := resolveRules (readProps msg.appKey) msg
  if rules.stream = JSVal.str "xpra" then
    launchXpra srv msg.appKey rules socketId msg.instanceId r pid
  else if rules.stream = JSVal.str "sunshine" then
    launchSunshine srv msg.appKey rules socketId msg.instanceId pid
  else
    ({ srv with emitted := srv.emitted ++
        [(socketId, .appError msg.appKey msg.instanceId
          ("Unknown stream type: " ++ rules.stream.template))] },
      none)

/-- The display that `native:kill` stops first: `session.display` when
`session.type === 'xpra' && session.display` holds. -/
def displayToStop (session : Session) : Option String :=
  match session.type == "xpra", session.display with
  | true, some display => if display != "" then some display else none
  | _, _ => none

/-- The listener of `native:kill` (lines 343-363). When the `exec` of
`xpra stop` throws, the listener stops there. A `process.kill` that throws is
caught and logged; without a pid it signals no process. -/
def nativeKill (srv : Server) (instanceId : String) : Server :=
  match mapGet srv.nativeSessions instanceId with
  | none => srv
  | some session =>
    let killed :=
      match session.pid with
      | some pid => srv.killed ++ [pid]
      | none => srv.killed
    match displayToStop session with
    | some display =>
      if execThrows ("xpra stop " ++ display) then srv
      else
        { srv with
          spawned := srv.spawned ++ ["xpra stop " ++ display]
          killed := killed
          nativeSessions := mapDelete srv.nativeSessions instanceId }
    | none =>
      { srv with
        killed := killed
        nativeSessions := mapDelete srv.nativeSessions instanceId }

/-- The events of a list that are `app:stream` events for `instanceId`. -/
def streamCount (instanceId : String) (events : List (String × Event)) : Nat :=
  events.countP (fun e =>
    match e.2 with
    | .appStream i _ _ _ => i == instanceId
    | _ => false)

/-- The events of a list that are `app:error` events for `instanceId`. -/
def errorCount (instanceId : String) (events : List (String × Event)) : Nat :=
  events.countP (fun e =>
    match e.2 with
    | .appError _ i _ => i == instanceId
    | _ => false)

/-! ## Fixtures -/

/-- A server with the single connection `s1`, whose approved flag is `b`, and
nothing else. -/
def oneSocket (b : Bool) : Server :=
  { socketClients := [("s1", { uacApproved := b })], nativeSessions := [], emitted := [],
    spawned := [], killed := [] }

/-- An application registry in which every application declares the launch
command `gedit` and the stream backend `xpra`. -/
def declaresXpra : String → Rules :=
  fun _ => { command := .str "gedit", stream := .str "xpra" }

/-- An application registry without any `app.properties.json`. -/
def declaresNothing : String → Rules :=
  fun _ => { command := .undefined, stream := .undefined }

/-- The draw 1/2 of `Math.random()`. -/
def drawHalf : RandomDraw := { num := 1, exp := 1 }

/-- The draw 1/4 of `Math.random()`. -/
def drawQuarter : RandomDraw := { num := 1, exp := 2 }

/-- The closure variables of a `launchXpra` of instance `i1` on socket `s1`. -/
def xpraProc : Proc :=
  { socketId := "s1", appKey := "editor", instanceId := "i1", pid := some 11,
    display := some ":200" }

/-- The closure variables of a second `launchXpra`, of instance `i2` on
socket `s1`. -/
def xpraProc2 : Proc :=
  { socketId := "s1", appKey := "editor", instanceId := "i2", pid := some 12,
    display := some ":200" }

/-- The closure variables of a `launchSunshine` of instance `i1` on socket `s1`. -/
def sunshineProc : Proc :=
  { socketId := "s1", appKey := "game", instanceId := "i1", pid := some 11, display := none }

/-- The state and the callbacks after `launchXpra` of instance `i1` on socket
`s1`, with the draw 1/2 and the process id 11; the callbacks are `xpraProc`. -/
def xpraLaunched : Server × Option Proc :=
  launchXpra (oneSocket false) "editor" (declaresXpra "editor") "s1" "i1" drawHalf (some 11)

/-- The state of `xpraLaunched` once the process has reported its port and the
session of `i1` is registered. -/
def xpraActive : Server :=
  xpraCallback xpraLaunched.1 xpraProc false "listening on port 5001"

/-- A second `launchXpra`, of instance `i2`, while the session of `i1` is
registered, with the draw 1/4 and the process id 12; the callbacks are
`xpraProc2`. -/
def xpraSecond : Server × Option Proc :=
  launchXpra xpraActive "editor" (declaresXpra "editor") "s1" "i2" drawQuarter (some 12)

/-- The state and the callbacks after `launchSunshine` of instance `i1` on
socket `s1`, with the process id 11; the callbacks are `sunshineProc`. -/
def sunshineFirst : Server × Option Proc :=
  launchSunshine (oneSocket false) "game" (declaresXpra "game") "s1" "i1" (some 11)

/-- A second `launchSunshine` of the same instance `i1`, with the process id
22, while the first process runs. -/
def sunshineSecond : Server × Option Proc :=
  launchSunshine sunshineFirst.1 "game" (declaresXpra "game") "s1" "i1" (some 22)

/-- An application registry in which every application declares a launch
command that holds a NUL character. -/
def declaresNul : String → Rules :=
  fun _ => { command := .str "a\x00b", stream := .str "sunshine" }

/-! ## Maps: facts -/

theorem mapGet_mapSet_self {α : Type} (m : List (String × α)) (k : String) (v : α) :
    mapGet (mapSet m k v) k = some v := by
  induction m with
  | nil => simp [mapSet, mapGet]
  | cons p rest ih =>
    obtain ⟨k1, v1⟩ := p
    by_cases hk : k1 = k
    · simp [mapSet, mapGet, hk]
    · simp [mapSet, mapGet, hk, ih]

theorem mapGet_mapDelete_self {α : Type} (m : List (String × α)) (k : String) :
    mapGet (mapDelete m k) k = none := by
  induction m with
  | nil => simp [mapDelete, mapGet]
  | cons p rest ih =>
    obtain ⟨k1, v1⟩ := p
    by_cases hk : k1 = k
    · simpa [mapDelete, hk] using ih
    · simpa [mapDelete, mapGet, hk] using ih

/-! ## The command gateway: facts -/

theorem riskySpawns_append (spawned : List String) (c : String) :
    riskySpawns (spawned ++ [c])
      = riskySpawns spawned + (if (risksOf c).length > 0 then 1 else 0) := by
  simp [riskySpawns, List.countP_append, List.countP_cons]

/-- The handler on a live connection whose flag is `b`. -/
theorem apiExec_cases (srv : Server) (sid c : String) (b : Bool)
    (h : mapGet srv.socketClients sid = some { uacApproved := b }) :
    apiExec srv sid c =
      if isBlacklisted c then (.forbidden "Command permanently blocked", srv)
      else if (risksOf c).length > 0 && !b then
        (.pending, { srv with emitted := srv.emitted ++ [(sid, .uacRequired c (risksOf c))] })
      else if execThrows c then
        (.noResponse,
          { srv with socketClients := mapSet srv.socketClients sid { uacApproved := false } })
      else
        (.success,
          { srv with
            socketClients := mapSet srv.socketClients sid { uacApproved := false }
            spawned := srv.spawned ++ [c] }) := by
  simp only [apiExec, h]

/-- One signal keeps the connection live and pays for a risky spawn with the
approved flag. -/
theorem step_invariant (sid : String) (srv : Server) (b : Bool) (sig : Signal)
    (h : mapGet srv.socketClients sid = some { uacApproved := b }) :
    ∃ b1 : Bool, mapGet (step sid srv sig).socketClients sid = some { uacApproved := b1 } ∧
      riskySpawns (step sid srv sig).spawned + b1.toNat
        ≤ riskySpawns srv.spawned + b.toNat + (if sig = Signal.approve then 1 else 0) := by
  cases sig with
  | approve =>
    refine ⟨true, ?_, ?_⟩
    · simp [step, uacApprove, setApproved, h, mapGet_mapSet_self]
    · simp [step, uacApprove, setApproved, h]
  | deny =>
    refine ⟨false, ?_, ?_⟩
    · simp [step, uacDeny, setApproved, h, mapGet_mapSet_self]
    · simp [step, uacDeny, setApproved, h]
  | exec c =>
    simp only [step, apiExec_cases srv sid c b h]
    by_cases hb : isBlacklisted c = true
    · exact ⟨b, by simp [hb, h], by simp [hb]⟩
    · by_cases hr : ((risksOf c).length > 0 && !b) = true
      · exact ⟨b, by simp [hb, hr, h], by simp [hb, hr]⟩
      · by_cases ht : execThrows c = true
        · exact ⟨false, by simp [hb, hr, ht, mapGet_mapSet_self], by simp [hb, hr, ht]⟩
        · refine ⟨false, by simp [hb, hr, ht, mapGet_mapSet_self], ?_⟩
          simp only [hb, hr, ht, if_false, Bool.false_eq_true]
          rw [riskySpawns_append]
          cases b
          · have : risksOf c = [] := by simpa using hr
            simp [this]
          · simp only [Bool.toNat_true, Bool.toNat_false]
            split_ifs <;> omega

/-- The invariant of `step_invariant` along a sequence of signals. -/
theorem run_invariant (sid : String) (sigs : List Signal) :
    ∀ (srv : Server) (b : Bool), mapGet srv.socketClients sid = some { uacApproved := b } →
    ∃ b1 : Bool, mapGet (run sid srv sigs).socketClients sid = some { uacApproved := b1 } ∧
      riskySpawns (run sid srv sigs).spawned + b1.toNat
        ≤ riskySpawns srv.spawned + b.toNat + approvals sigs := by
  induction sigs with
  | nil => intro srv b h; exact ⟨b, by simpa [run] using h, by simp [run, approvals]⟩
  | cons sig rest ih =>
    intro srv b h
    obtain ⟨b1, h1, hle1⟩ := step_invariant sid srv b sig h
    obtain ⟨b2, h2, hle2⟩ := ih (step sid srv sig) b1 h1
    refine ⟨b2, by simpa [run] using h2, ?_⟩
    have ha : approvals (sig :: rest)
        = (if sig = Signal.approve then 1 else 0) + approvals rest := by
      simp [approvals, List.countP_cons, Nat.add_comm]
    have hrun : run sid srv (sig :: rest) = run sid (step sid srv sig) rest := by simp [run]
    rw [hrun, ha]
    simp only [run] at hle2 ⊢
    omega

/-! ## The regular expression: facts -/

theorem stripPrefixChars_eq_some (p : List Char) :
    ∀ s rest : List Char, stripPrefixChars p s = some rest ↔ s = p ++ rest := by
  induction p with
  | nil => intro s rest; simp [stripPrefixChars, eq_comm]
  | cons a as ih =>
    intro s rest
    cases s with
    | nil => simp [stripPrefixChars]
    | cons b bs =>
      by_cases hab : a = b
      · simp [stripPrefixChars, hab, ih]
      · simp [stripPrefixChars, hab]
        intro h; exact absurd h.symm hab

/-- A list is its digit run followed by a rest that starts with no digit. -/
theorem digitRun_split (l : List Char) :
    ∃ rest, l = digitRun l ++ rest ∧ ∀ c tail, rest = c :: tail → c.isDigit = false := by
  induction l with
  | nil => exact ⟨[], by simp [digitRun], by simp⟩
  | cons a as ih =>
    by_cases ha : a.isDigit = true
    · obtain ⟨rest, h1, h2⟩ := ih
      refine ⟨rest, ?_, h2⟩
      simp only [digitRun, List.takeWhile_cons, ha, if_true, List.cons_append] at h1 ⊢
      rw [← h1]
    · refine ⟨a :: as, by simp [digitRun, List.takeWhile_cons, ha], ?_⟩
      intro c tail hc
      simp only [List.cons.injEq] at hc
      rw [← hc.1]; simpa using ha

theorem digitRun_all (l : List Char) : ∀ c ∈ digitRun l, c.isDigit = true := by
  intro c hc
  exact List.mem_takeWhile_imp hc

/-- A match at the start of the list: the list is `port `, the digits captured
and a rest that starts with no digit. -/
theorem matchPortAt_some (s ds : List Char) (h : matchPortAt s = some ds) :
    ∃ rest, s = portWord ++ ds ++ rest ∧ ds ≠ [] ∧ (∀ c ∈ ds, c.isDigit = true) ∧
      ∀ c tail, rest = c :: tail → c.isDigit = false := by
  unfold matchPortAt at h
  cases hs : stripPrefixChars portWord s with
  | none => simp [hs] at h
  | some r =>
    simp only [hs] at h
    by_cases he : (digitRun r).isEmpty = true
    · simp [he] at h
    · simp only [he] at h
      simp only [Bool.false_eq_true, if_false, Option.some.injEq] at h
      obtain ⟨rest, h1, h2⟩ := digitRun_split r
      refine ⟨rest, ?_, ?_, ?_, h2⟩
      · rw [(stripPrefixChars_eq_some portWord s r).1 hs, List.append_assoc, ← h, ← h1]
      · rw [← h]; simpa using he
      · rw [← h]; exact digitRun_all r

/-- No match at the start of the list: the list does not start with `port `
and a digit. -/
theorem matchPortAt_none (s : List Char) (h : matchPortAt s = none) :
    ∀ d post, s = portWord ++ d :: post → d.isDigit = true → False := by
  intro d post hs hd
  have hstrip : stripPrefixChars portWord s = some (d :: post) :=
    (stripPrefixChars_eq_some portWord s (d :: post)).2 hs
  simp [matchPortAt, hstrip, digitRun, List.takeWhile_cons, hd] at h

/-- No match anywhere: `port ` followed by a digit occurs nowhere. -/
theorem matchPortFrom_none (s : List Char) (h : matchPortFrom s = none) :
    ∀ pre d post, s = pre ++ portWord ++ d :: post → d.isDigit = true → False := by
  induction s with
  | nil =>
    intro pre d post hs
    simp [portWord] at hs
  | cons c cs ih =>
    intro pre d post hs hd
    simp only [matchPortFrom] at h
    cases hat : matchPortAt (c :: cs) with
    | some ds => simp [hat] at h
    | none =>
      simp only [hat] at h
      cases pre with
      | nil => exact matchPortAt_none (c :: cs) hat d post (by simpa using hs) hd
      | cons a pre1 =>
        simp only [List.cons_append, List.cons.injEq] at hs
        exact ih h pre1 d post hs.2 hd

/-- A match: the digits captured are the whole digit run after the leftmost
`port ` that a digit follows. -/
theorem matchPortFrom_some (s : List Char) :
    ∀ ds, matchPortFrom s = some ds →
    ∃ pre rest, s = pre ++ portWord ++ ds ++ rest ∧ ds ≠ [] ∧ (∀ c ∈ ds, c.isDigit = true) ∧
      (∀ c tail, rest = c :: tail → c.isDigit = false) ∧
      ∀ pre1 d post, s = pre1 ++ portWord ++ d :: post → d.isDigit = true →
        pre.length ≤ pre1.length := by
  induction s with
  | nil => intro ds h; simp [matchPortFrom] at h
  | cons c cs ih =>
    intro ds h
    simp only [matchPortFrom] at h
    cases hat : matchPortAt (c :: cs) with
    | some ds1 =>
      simp only [hat, Option.some.injEq] at h
      subst h
      obtain ⟨rest, h1, h2, h3, h4⟩ := matchPortAt_some (c :: cs) ds1 hat
      exact ⟨[], rest, by simpa using h1, h2, h3, h4, by intros; simp⟩
    | none =>
      simp only [hat] at h
      obtain ⟨pre, rest, h1, h2, h3, h4, h5⟩ := ih ds h
      refine ⟨c :: pre, rest, by simp [h1], h2, h3, h4, ?_⟩
      intro pre1 d post hs hd
      cases pre1 with
      | nil =>
        exact absurd hd (fun hd => matchPortAt_none (c :: cs) hat d post (by simpa using hs) hd)
      | cons a pre2 =>
        simp only [List.cons_append, List.cons.injEq] at hs
        have := h5 pre2 d post hs.2 hd
        simp only [List.length_cons]
        omega

/-! ## The display number: facts -/

theorem roundHalfEven_bounds (n d : Nat) :
    n / d ≤ roundHalfEven n d ∧ roundHalfEven n d ≤ n / d + 1 := by
  unfold roundHalfEven
  split_ifs <;> omega

/-- For every draw in [0, 1) the value `Math.floor(Math.random() + 100)` is 100
or, when the sum rounds up to 101, 101. -/
theorem floorRandomPlus100_range (r : RandomDraw) (h : r.num < 2 ^ r.exp) :
    floorRandomPlus100 r = 100 ∨ floorRandomPlus100 r = 101 := by
  obtain ⟨n, e⟩ := r
  simp only at h
  unfold floorRandomPlus100
  simp only
  by_cases he : e ≤ 46
  · left
    simp only [he, if_true]
    have hpow : 2 ^ 46 = 2 ^ e * 2 ^ (46 - e) := by
      rw [← pow_add]; congr 1; omega
    have hB : 0 < 2 ^ (46 - e) := Nat.pow_pos (by norm_num)
    have hlt : n * 2 ^ (46 - e) < 2 ^ 46 := by
      rw [hpow]; exact Nat.mul_lt_mul_of_pos_right h hB
    have hsum : (n + 100 * 2 ^ e) * 2 ^ (46 - e) = n * 2 ^ (46 - e) + 100 * 2 ^ 46 := by
      rw [hpow]; ring
    rw [hsum, Nat.add_mul_div_right _ _ (Nat.pow_pos (by norm_num)), Nat.div_eq_of_lt hlt]
  · simp only [he, if_false]
    have hpow : 2 ^ e = 2 ^ 46 * 2 ^ (e - 46) := by
      rw [← pow_add]; congr 1; omega
    have hd : 0 < 2 ^ (e - 46) := Nat.pow_pos (by norm_num)
    obtain ⟨hlo, hhi⟩ := roundHalfEven_bounds (n + 100 * 2 ^ e) (2 ^ (e - 46))
    have hq : (n + 100 * 2 ^ e) / 2 ^ (e - 46) = n / 2 ^ (e - 46) + 100 * 2 ^ 46 := by
      rw [hpow, ← Nat.mul_assoc, Nat.add_mul_div_right _ _ hd]
    have hm : n / 2 ^ (e - 46) < 2 ^ 46 := by
      rw [Nat.div_lt_iff_lt_mul hd, ← hpow]; exact h
    rw [hq] at hlo hhi
    generalize roundHalfEven (n + 100 * 2 ^ e) (2 ^ (e - 46)) = q at hlo hhi
    generalize n / 2 ^ (e - 46) = m at hlo hhi hm
    norm_num at hlo hhi hm ⊢
    omega

/-! ## The claims -/

/-- Claim C1, at a failing input. `mkfs` and `dd if=` are entries of
`BLACKLISTED_COMMANDS`, but the handler of `POST /api/exec` tests its own
two-entry list: on a live connection the command `mkfs /dev/sda1` is answered
`success` and handed to `exec` whatever the approved flag is, and the command
`dd if=/dev/zero of=/dev/sda` is handed to `exec` when the flag is set and
answered `pending` when it is not; neither gets the 403 answer. -/
theorem C1_blocklisted_command_is_spawned :
    "mkfs" ∈ BLACKLISTED_COMMANDS ∧ includes "mkfs /dev/sda1" "mkfs" = true ∧
    (∀ b : Bool, apiExec (oneSocket b) "s1" "mkfs /dev/sda1"
      = (.success, { oneSocket false with spawned := ["mkfs /dev/sda1"] })) ∧
    "dd if=" ∈ BLACKLISTED_COMMANDS ∧
    includes "dd if=/dev/zero of=/dev/sda" "dd if=" = true ∧
    apiExec (oneSocket true) "s1" "dd if=/dev/zero of=/dev/sda"
      = (.success, { oneSocket false with spawned := ["dd if=/dev/zero of=/dev/sda"] }) ∧
    (apiExec (oneSocket false) "s1" "dd if=/dev/zero of=/dev/sda").1 = .pending := by
  decide

/-- Claim C2, at a failing input. `apt` is an entry of `RISKY_KEYWORDS`, but the
handler of `POST /api/exec` scans for its own list (`sudo`, `rm`, `dd`, `mount`,
`chmod`, `chown`): with the approved flag unset, the command `apt install vim`,
which holds no blocklisted text, is answered `success` and handed to `exec`,
and no `uac:required` event is emitted; for `sudo apt update` the event is
emitted, with `sudo` as its only risk. -/
theorem C2_risky_keyword_spawned_without_approval :
    "apt" ∈ RISKY_KEYWORDS ∧ includes "apt install vim" "apt" = true ∧
    (∀ bad ∈ BLACKLISTED_COMMANDS, includes "apt install vim" bad = false) ∧
    apiExec (oneSocket false) "s1" "apt install vim"
      = (.success, { oneSocket false with spawned := ["apt install vim"] }) ∧
    apiExec (oneSocket false) "s1" "sudo apt update"
      = (.pending,
          { oneSocket false with
            emitted := [("s1", .uacRequired "sudo apt update" ["sudo"])] }) := by
  decide

/-- Claim C3, as stated, fails: after one `uac:approve`, of the two consecutive
requests `rm -rf /tmp/x` and `rm y`, which both match the risk token `rm`, the
first is refused by the blocklist (it holds `rm -rf /`) and spawns nothing, the
flag stays set, and the second is answered `success`, not `pending`, and is
spawned. -/
theorem C3_counterexample_blocked_then_spawned :
    (risksOf "rm -rf /tmp/x").length > 0 ∧ (risksOf "rm y").length > 0 ∧
    apiExec (uacApprove (oneSocket false) "s1") "s1" "rm -rf /tmp/x"
      = (.forbidden "Command permanently blocked", oneSocket true) ∧
    apiExec (apiExec (uacApprove (oneSocket false) "s1") "s1" "rm -rf /tmp/x").2 "s1" "rm y"
      = (.success, { oneSocket false with spawned := ["rm y"] }) := by
  decide

/-- Claim C3, amended. On a live connection, with the risk tokens the handler
scans for: (a) an exec request either spawns nothing or spawns its command and
leaves the approved flag false; (b) from a flag that is false, after every
prefix of every sequence of `uac:approve`, `uac:deny` and exec signals the
number of spawned commands that match a risk token is at most the number of
`uac:approve` signals of that prefix; (c) after one `uac:approve`, of two
consecutive requests that match a risk token and hold no text of the blocklist
of the handler, the first, when `exec` accepts its command, is answered
`success` and spawns exactly its command, and the second is then answered
`pending` and spawns nothing; (d) when `exec` throws on the first, it gets no
answer and spawns nothing, and the second is answered `pending` and spawns
nothing all the same. -/
theorem C3_one_shot_approval (sid : String) (srv : Server) (b : Bool)
    (hlive : mapGet srv.socketClients sid = some { uacApproved := b }) :
    (∀ c, (apiExec srv sid c).2.spawned = srv.spawned ∨
      ((apiExec srv sid c).2.spawned = srv.spawned ++ [c] ∧
        mapGet (apiExec srv sid c).2.socketClients sid = some { uacApproved := false })) ∧
    (b = false → ∀ (sigs : List Signal) (n : Nat),
      riskySpawns (run sid srv (sigs.take n)).spawned
        ≤ riskySpawns srv.spawned + approvals (sigs.take n)) ∧
    (∀ c1 c2, isBlacklisted c1 = false → isBlacklisted c2 = false →
      (risksOf c1).length > 0 → (risksOf c2).length > 0 → execThrows c1 = false →
      (apiExec (uacApprove srv sid) sid c1).1 = .success ∧
      (apiExec (uacApprove srv sid) sid c1).2.spawned = srv.spawned ++ [c1] ∧
      (apiExec (apiExec (uacApprove srv sid) sid c1).2 sid c2).1 = .pending ∧
      (apiExec (apiExec (uacApprove srv sid) sid c1).2 sid c2).2.spawned
        = srv.spawned ++ [c1]) ∧
    (∀ c1 c2, isBlacklisted c1 = false → isBlacklisted c2 = false →
      (risksOf c1).length > 0 → (risksOf c2).length > 0 → execThrows c1 = true →
      (apiExec (uacApprove srv sid) sid c1).1 = .noResponse ∧
      (apiExec (uacApprove srv sid) sid c1).2.spawned = srv.spawned ∧
      (apiExec (apiExec (uacApprove srv sid) sid c1).2 sid c2).1 = .pending ∧
      (apiExec (apiExec (uacApprove srv sid) sid c1).2 sid c2).2.spawned = srv.spawned) := by
  have happ : mapGet (uacApprove srv sid).socketClients sid = some { uacApproved := true } := by
    simp [uacApprove, setApproved, hlive, mapGet_mapSet_self]
  have hsp : (uacApprove srv sid).spawned = srv.spawned := by
    simp [uacApprove, setApproved, hlive]
  have hsecond : ∀ (s1 : Server) (c2 : String), isBlacklisted c2 = false →
      (risksOf c2).length > 0 → mapGet s1.socketClients sid = some { uacApproved := false } →
      (apiExec s1 sid c2).1 = .pending ∧ (apiExec s1 sid c2).2.spawned = s1.spawned := by
    intro s1 c2 hb2 hr2 hl
    have hr2b : decide ((risksOf c2).length > 0) = true := by simpa using hr2
    rw [apiExec_cases s1 sid c2 false hl]
    simp [hb2, hr2b]
  refine ⟨?_, ?_, ?_, ?_⟩
  · intro c
    rw [apiExec_cases srv sid c b hlive]
    by_cases hb : isBlacklisted c = true
    · left; simp [hb]
    · by_cases hr : ((risksOf c).length > 0 && !b) = true
      · left; simp [hb, hr]
      · by_cases ht : execThrows c = true
        · left; simp [hb, hr, ht]
        · right; simp [hb, hr, ht, mapGet_mapSet_self]
  · intro hb sigs n
    subst hb
    obtain ⟨b1, _, hle⟩ := run_invariant sid (sigs.take n) srv false hlive
    simp only [Bool.toNat_false, Nat.add_zero] at hle
    omega
  · intro c1 c2 hb1 hb2 hr1 hr2 ht1
    have h1 : apiExec (uacApprove srv sid) sid c1 = (.success,
        { uacApprove srv sid with
          socketClients := mapSet (uacApprove srv sid).socketClients sid { uacApproved := false }
          spawned := (uacApprove srv sid).spawned ++ [c1] }) := by
      rw [apiExec_cases _ sid c1 true happ]
      simp [hb1, ht1]
    have hlive2 : mapGet (apiExec (uacApprove srv sid) sid c1).2.socketClients sid
        = some { uacApproved := false } := by
      rw [h1]; simp [mapGet_mapSet_self]
    obtain ⟨h2a, h2b⟩ := hsecond _ c2 hb2 hr2 hlive2
    refine ⟨by rw [h1], by rw [h1, ← hsp], h2a, ?_⟩
    rw [h2b, h1, ← hsp]
  · intro c1 c2 hb1 hb2 hr1 hr2 ht1
    have h1 : apiExec (uacApprove srv sid) sid c1 = (.noResponse,
        { uacApprove srv sid with
          socketClients :=
            mapSet (uacApprove srv sid).socketClients sid { uacApproved := false } }) := by
      rw [apiExec_cases _ sid c1 true happ]
      simp [hb1, ht1]
    have hlive2 : mapGet (apiExec (uacApprove srv sid) sid c1).2.socketClients sid
        = some { uacApproved := false } := by
      rw [h1]; simp [mapGet_mapSet_self]
    obtain ⟨h2a, h2b⟩ := hsecond _ c2 hb2 hr2 hlive2
    refine ⟨by rw [h1], by rw [h1, ← hsp], h2a, ?_⟩
    rw [h2b, h1, ← hsp]

/-- Claim C3, witness: the amended claim on the connection `s1`, at a sequence
of one approval and two risky requests, at the requests `sudo ls` and `rm y`,
and at a first request that holds a NUL character. -/
theorem C3_one_shot_approval_witness :
    mapGet (oneSocket false).socketClients "s1" = some { uacApproved := false } ∧
    riskySpawns (run "s1" (oneSocket false)
        ([Signal.approve, Signal.exec "sudo ls", Signal.exec "rm y"].take 3)).spawned
      ≤ riskySpawns (oneSocket false).spawned
        + approvals ([Signal.approve, Signal.exec "sudo ls", Signal.exec "rm y"].take 3) ∧
    ((apiExec (uacApprove (oneSocket false) "s1") "s1" "sudo ls").1 = .success ∧
      (apiExec (uacApprove (oneSocket false) "s1") "s1" "sudo ls").2.spawned
        = (oneSocket false).spawned ++ ["sudo ls"] ∧
      (apiExec (apiExec (uacApprove (oneSocket false) "s1") "s1" "sudo ls").2 "s1" "rm y").1
        = .pending ∧
      (apiExec (apiExec (uacApprove (oneSocket false) "s1") "s1" "sudo ls").2 "s1"
          "rm y").2.spawned
        = (oneSocket false).spawned ++ ["sudo ls"]) ∧
    ((apiExec (uacApprove (oneSocket false) "s1") "s1" "echo rm\x00").1 = .noResponse ∧
      (apiExec (uacApprove (oneSocket false) "s1") "s1" "echo rm\x00").2.spawned
        = (oneSocket false).spawned ∧
      (apiExec (apiExec (uacApprove (oneSocket false) "s1") "s1" "echo rm\x00").2 "s1"
          "rm y").1 = .pending ∧
      (apiExec (apiExec (uacApprove (oneSocket false) "s1") "s1" "echo rm\x00").2 "s1"
          "rm y").2.spawned = (oneSocket false).spawned) :=
  ⟨by decide,
    (C3_one_shot_approval "s1" (oneSocket false) false (by decide)).2.1 rfl _ 3,
    (C3_one_shot_approval "s1" (oneSocket false) false (by decide)).2.2.1 "sudo ls" "rm y"
      (by decide) (by decide) (by decide) (by decide) (by decide),
    (C3_one_shot_approval "s1" (oneSocket false) false (by decide)).2.2.2 "echo rm\x00" "rm y"
      (by decide) (by decide) (by decide) (by decide) (by decide)⟩

/-- Claim C4, at a failing input. The application declares the stream backend
`xpra`; the listener of `native:launch` resolves `stream || rules.stream`, so
the client hint `sunshine` decides: `launchSunshine` is dispatched, and without
a hint the same application is launched by `launchXpra`. -/
theorem C4_client_hint_overrides_declared_backend :
    (declaresXpra "editor").stream = .str "xpra" ∧
    (nativeLaunch (oneSocket false) declaresXpra "s1"
        { appKey := "editor", instanceId := "i1", command := .undefined,
          stream := .str "sunshine" } drawHalf (some 11)).1.spawned
      = ["sunshine \"gedit\""] ∧
    (nativeLaunch (oneSocket false) declaresXpra "s1"
        { appKey := "editor", instanceId := "i1", command := .undefined,
          stream := .undefined } drawHalf (some 11)).1.spawned
      = ["xpra start :200 --start-child=\"gedit\" --html=on --bind-tcp=127.0.0.1:0"] := by
  decide

/-- Claim C5. The completion callback of `launchXpra`, called without error:
if `port ` followed by a decimal digit occurs in the output, then the output is
`pre`, `port `, `digits`, `rest`, where `digits` is a non-empty run of decimal
digits that no digit follows and no occurrence of `port ` followed by a digit
starts before `pre` ends, the session stored under `instanceId` has the url
`http://localhost:` followed by `digits`, and exactly one event is emitted, the
`app:stream` event with that url; if there is no such occurrence, exactly one
event is emitted, the `app:error` event `Failed to parse Xpra port`, and the
session registry is unchanged. -/
theorem C5_xpra_port_recovery (srv : Server) (p : Proc) (stdout : String) :
    ((∃ pre d post, stdout.data = pre ++ portWord ++ d :: post ∧ d.isDigit = true) →
      ∃ pre digits rest,
        stdout.data = pre ++ portWord ++ digits ++ rest ∧
        digits ≠ [] ∧ (∀ c ∈ digits, c.isDigit = true) ∧
        (∀ c tail, rest = c :: tail → c.isDigit = false) ∧
        (∀ pre1 d post, stdout.data = pre1 ++ portWord ++ d :: post → d.isDigit = true →
          pre.length ≤ pre1.length) ∧
        mapGet (xpraCallback srv p false stdout).nativeSessions p.instanceId
          = some { appKey := p.appKey, pid := p.pid, type := "xpra",
                   url := "http://localhost:" ++ String.mk digits, display := p.display } ∧
        (xpraCallback srv p false stdout).emitted = srv.emitted ++
          [(p.socketId,
            .appStream p.instanceId p.appKey "xpra" ("http://localhost:" ++ String.mk digits))]) ∧
    ((¬ ∃ pre d post, stdout.data = pre ++ portWord ++ d :: post ∧ d.isDigit = true) →
      (xpraCallback srv p false stdout).emitted = srv.emitted ++
        [(p.socketId, .appError p.appKey p.instanceId "Failed to parse Xpra port")] ∧
      (xpraCallback srv p false stdout).nativeSessions = srv.nativeSessions) := by
  constructor
  · intro h
    cases hm : matchPortFrom stdout.data with
    | none =>
      obtain ⟨pre, d, post, hs, hd⟩ := h
      exact (matchPortFrom_none stdout.data hm pre d post hs hd).elim
    | some ds =>
      obtain ⟨pre, rest, h1, h2, h3, h4, h5⟩ := matchPortFrom_some stdout.data ds hm
      refine ⟨pre, ds, rest, h1, h2, h3, h4, h5, ?_, ?_⟩
      · simp [xpraCallback, matchPort, hm, mapGet_mapSet_self]
      · simp [xpraCallback, matchPort, hm]
  · intro h
    cases hm : matchPortFrom stdout.data with
    | none => simp [xpraCallback, matchPort, hm]
    | some ds =>
      obtain ⟨pre, rest, h1, h2, h3, _, _⟩ := matchPortFrom_some stdout.data ds hm
      cases ds with
      | nil => exact absurd rfl h2
      | cons d ds1 =>
        exact absurd ⟨pre, d, ds1 ++ rest, by simpa using h1, h3 d (List.mem_cons_self d ds1)⟩ h

/-- Claim C5, witness: the callback at the output `listening on port 54321`,
where the url is `http://localhost:54321`, and at the output `no display`,
where the port cannot be parsed. -/
theorem C5_xpra_port_recovery_witness :
    (∃ pre d post, String.data "listening on port 54321\n" = pre ++ portWord ++ d :: post
      ∧ d.isDigit = true) ∧
    (∃ pre digits rest,
      String.data "listening on port 54321\n" = pre ++ portWord ++ digits ++ rest ∧
      digits ≠ [] ∧ (∀ c ∈ digits, c.isDigit = true) ∧
      (∀ c tail, rest = c :: tail → c.isDigit = false) ∧
      (∀ pre1 d post, String.data "listening on port 54321\n" = pre1 ++ portWord ++ d :: post →
        d.isDigit = true → pre.length ≤ pre1.length) ∧
      mapGet (xpraCallback xpraLaunched.1 xpraProc false
          "listening on port 54321\n").nativeSessions xpraProc.instanceId
        = some { appKey := xpraProc.appKey, pid := xpraProc.pid, type := "xpra",
                 url := "http://localhost:" ++ String.mk digits, display := xpraProc.display } ∧
      (xpraCallback xpraLaunched.1 xpraProc false "listening on port 54321\n").emitted
        = xpraLaunched.1.emitted ++
          [(xpraProc.socketId, .appStream xpraProc.instanceId xpraProc.appKey "xpra"
            ("http://localhost:" ++ String.mk digits))]) ∧
    (xpraCallback xpraLaunched.1 xpraProc false "listening on port 54321\n").emitted
      = [("s1", .appStream "i1" "editor" "xpra" "http://localhost:54321")] ∧
    (¬ ∃ pre d post, String.data "no display" = pre ++ portWord ++ d :: post
      ∧ d.isDigit = true) ∧
    ((xpraCallback xpraLaunched.1 xpraProc false "no display").emitted
        = xpraLaunched.1.emitted ++
          [(xpraProc.socketId,
            .appError xpraProc.appKey xpraProc.instanceId "Failed to parse Xpra port")] ∧
      (xpraCallback xpraLaunched.1 xpraProc false "no display").nativeSessions
        = xpraLaunched.1.nativeSessions) :=
  ⟨⟨String.data "listening on ", '5', String.data "4321\n", by decide, by decide⟩,
    (C5_xpra_port_recovery xpraLaunched.1 xpraProc "listening on port 54321\n").1
      ⟨String.data "listening on ", '5', String.data "4321\n", by decide, by decide⟩,
    by decide,
    fun ⟨pre, d, post, hs, hd⟩ =>
      matchPortFrom_none (String.data "no display") (by decide) pre d post hs hd,
    (C5_xpra_port_recovery xpraLaunched.1 xpraProc "no display").2
      (fun ⟨pre, d, post, hs, hd⟩ =>
        matchPortFrom_none (String.data "no display") (by decide) pre d post hs hd)⟩

/-- Claim C6, at a failing input. A session launched by `launchXpra` whose
`exit` listener runs before the completion callback: the listener deletes
nothing, the callback then stores the session, and after both have run the
registry still holds the entry of `i1`, though the process has ended and no
`native:kill` came. In the other order the entry is removed, as it is in both
orders for `launchSunshine`, which stores the session at launch. -/
theorem C6_xpra_exit_before_callback_keeps_session :
    xpraLaunched.2 = some xpraProc ∧
    mapGet (xpraCallback (xpraExit xpraLaunched.1 xpraProc) xpraProc false
        "listening on port 54321\n").nativeSessions "i1"
      = some { appKey := "editor", pid := some 11, type := "xpra",
               url := "http://localhost:54321", display := some ":200" } ∧
    mapGet (xpraExit (xpraCallback xpraLaunched.1 xpraProc false
        "listening on port 54321\n") xpraProc).nativeSessions "i1" = none ∧
    sunshineFirst.2 = some sunshineProc ∧
    (∀ err : Bool,
      mapGet (sunshineCallback (sunshineExit sunshineFirst.1 sunshineProc)
          sunshineProc err).nativeSessions "i1" = none ∧
      mapGet (sunshineExit (sunshineCallback sunshineFirst.1 sunshineProc err)
          sunshineProc).nativeSessions "i1" = none) := by
  decide

/-- Claim C7, at a failing input. Line 404 computes
`100 + Math.floor(Math.random() + 100)`, and `Math.floor(Math.random() + 100)`
is 100 for the draws 1/2 and 1/4 alike: a `launchXpra` that draws 1/2 and,
while its session is registered, a second `launchXpra` that draws 1/4 both
compute the display `:200`, and both sessions are registered with that
display at the same time. -/
theorem C7_concurrent_launches_share_display :
    floorRandomPlus100 drawHalf = 100 ∧ floorRandomPlus100 drawQuarter = 100 ∧
    xpraLaunched.2 = some xpraProc ∧ xpraProc.display = some ":200" ∧
    mapGet xpraSecond.1.nativeSessions "i1"
      = some { appKey := "editor", pid := some 11, type := "xpra",
               url := "http://localhost:5001", display := some ":200" } ∧
    xpraSecond.2 = some xpraProc2 ∧ xpraProc2.display = some ":200" ∧
    xpraSecond.1.spawned
      = ["xpra start :200 --start-child=\"gedit\" --html=on --bind-tcp=127.0.0.1:0",
         "xpra start :200 --start-child=\"gedit\" --html=on --bind-tcp=127.0.0.1:0"] ∧
    mapGet (xpraCallback xpraSecond.1 xpraProc2 false
        "listening on port 5002").nativeSessions "i1"
      = some { appKey := "editor", pid := some 11, type := "xpra",
               url := "http://localhost:5001", display := some ":200" } ∧
    mapGet (xpraCallback xpraSecond.1 xpraProc2 false
        "listening on port 5002").nativeSessions "i2"
      = some { appKey := "editor", pid := some 12, type := "xpra",
               url := "http://localhost:5002", display := some ":200" } := by
  decide

/-- Claim C8, as stated, fails: two `launchSunshine` calls with the same
`instanceId`, the first process (pid 11) still running when the second (pid 22)
is launched. The second call is not rejected and replaces the registry entry,
no `process.kill` is made and nothing else holds pid 11, so the first process
runs untracked; and the `exit` listener of the first process then deletes the
entry that belongs to the second session. -/
theorem C8_counterexample_overwrite_with_orphan :
    sunshineFirst.2 = some sunshineProc ∧
    mapGet sunshineFirst.1.nativeSessions "i1"
      = some { appKey := "game", pid := some 11, type := "sunshine",
               url := "http://localhost:47989", display := none } ∧
    sunshineSecond.1.nativeSessions
      = [("i1", { appKey := "game", pid := some 22, type := "sunshine",
                  url := "http://localhost:47989", display := none })] ∧
    sunshineSecond.1.killed = [] ∧
    sunshineSecond.1.emitted = [] ∧
    sunshineSecond.1.spawned = ["sunshine \"gedit\"", "sunshine \"gedit\""] ∧
    (sunshineExit sunshineSecond.1 sunshineProc).nativeSessions = [] := by
  decide

/-- Claim C8, amended. A launch never rejects an `instanceId` that is in use and
never terminates a process. Whatever the registry holds: when `exec` accepts
the command line, `launchSunshine` spawns it and stores the new session under
`instanceId`, and `launchXpra` spawns it and leaves the registry as it is;
when `exec` throws, either leaves the whole state as it is and registers no
callback; and the completion callback of `launchXpra`, when it recovers a
port, stores the new session under `instanceId`. The entry under `instanceId`
is then the one of the latest registration, and none of the three makes a
`process.kill` or emits an error. -/
theorem C8_latest_registration_wins (srv : Server) (appKey : String) (rules : Rules)
    (sid instanceId : String) (r : RandomDraw) (pid : Option Nat) (p : Proc) (stdout : String) :
    (execThrows (sunshineCmd rules) = false →
      mapGet (launchSunshine srv appKey rules sid instanceId pid).1.nativeSessions instanceId
        = some { appKey := appKey, pid := pid, type := "sunshine", url := sunshineUrl,
                 display := none } ∧
      (launchSunshine srv appKey rules sid instanceId pid).1.spawned
        = srv.spawned ++ [sunshineCmd rules] ∧
      (launchSunshine srv appKey rules sid instanceId pid).1.killed = srv.killed ∧
      (launchSunshine srv appKey rules sid instanceId pid).1.emitted = srv.emitted ∧
      (launchSunshine srv appKey rules sid instanceId pid).2
        = some { socketId := sid, appKey := appKey, instanceId := instanceId, pid := pid,
                 display := none }) ∧
    (execThrows (sunshineCmd rules) = true →
      launchSunshine srv appKey rules sid instanceId pid = (srv, none)) ∧
    (execThrows (xpraCmd (xpraDisplay r) rules) = false →
      (launchXpra srv appKey rules sid instanceId r pid).1.nativeSessions = srv.nativeSessions ∧
      (launchXpra srv appKey rules sid instanceId r pid).1.spawned
        = srv.spawned ++ [xpraCmd (xpraDisplay r) rules] ∧
      (launchXpra srv appKey rules sid instanceId r pid).1.killed = srv.killed ∧
      (launchXpra srv appKey rules sid instanceId r pid).1.emitted = srv.emitted ∧
      (launchXpra srv appKey rules sid instanceId r pid).2
        = some { socketId := sid, appKey := appKey, instanceId := instanceId, pid := pid,
                 display := some (xpraDisplay r) }) ∧
    (execThrows (xpraCmd (xpraDisplay r) rules) = true →
      launchXpra srv appKey rules sid instanceId r pid = (srv, none)) ∧
    (∀ port, matchPort stdout = some port →
      mapGet (xpraCallback srv p false stdout).nativeSessions p.instanceId
        = some { appKey := p.appKey, pid := p.pid, type := "xpra",
                 url := "http://localhost:" ++ port, display := p.display } ∧
      (xpraCallback srv p false stdout).spawned = srv.spawned ∧
      (xpraCallback srv p false stdout).killed = srv.killed ∧
      (xpraCallback srv p false stdout).emitted = srv.emitted ++
        [(p.socketId, .appStream p.instanceId p.appKey "xpra" ("http://localhost:" ++ port))]) := by
  refine ⟨?_, ?_, ?_, ?_, ?_⟩
  · intro ht
    simp [launchSunshine, ht, mapGet_mapSet_self]
  · intro ht
    simp [launchSunshine, ht]
  · intro ht
    simp [launchXpra, ht]
  · intro ht
    simp [launchXpra, ht]
  · intro port hport
    simp [xpraCallback, hport, mapGet_mapSet_self]

/-- Claim C8, witness: a `launchSunshine` and a `launchXpra` of instance `i1`
while a session of `i1` is registered, the same two launches with a command
that holds a NUL character, and the completion callback of a `launchXpra` of
`i1` that reports port 5002 while a session of `i1` with port 5001 is
registered. -/
theorem C8_latest_registration_wins_witness :
    (execThrows (sunshineCmd (declaresXpra "game")) = false ∧
      mapGet xpraActive.nativeSessions "i1"
        = some { appKey := "editor", pid := some 11, type := "xpra",
                 url := "http://localhost:5001", display := some ":200" } ∧
      mapGet (launchSunshine xpraActive "game" (declaresXpra "game") "s1" "i1"
          (some 22)).1.nativeSessions "i1"
        = some { appKey := "game", pid := some 22, type := "sunshine", url := sunshineUrl,
                 display := none }) ∧
    (execThrows (sunshineCmd (declaresNul "game")) = true ∧
      launchSunshine xpraActive "game" (declaresNul "game") "s1" "i1" (some 22)
        = (xpraActive, none)) ∧
    (execThrows (xpraCmd (xpraDisplay drawHalf) (declaresXpra "editor")) = false ∧
      (launchXpra xpraActive "editor" (declaresXpra "editor") "s1" "i1" drawHalf
          (some 22)).1.nativeSessions = xpraActive.nativeSessions) ∧
    (execThrows (xpraCmd (xpraDisplay drawHalf) (declaresNul "editor")) = true ∧
      launchXpra xpraActive "editor" (declaresNul "editor") "s1" "i1" drawHalf (some 22)
        = (xpraActive, none)) ∧
    (matchPort "listening on port 5002" = some "5002" ∧
      mapGet (xpraCallback xpraActive xpraProc false
          "listening on port 5002").nativeSessions xpraProc.instanceId
        = some { appKey := xpraProc.appKey, pid := xpraProc.pid, type := "xpra",
                 url := "http://localhost:" ++ "5002", display := xpraProc.display } ∧
      (xpraCallback xpraActive xpraProc false "listening on port 5002").spawned
        = xpraActive.spawned ∧
      (xpraCallback xpraActive xpraProc false "listening on port 5002").killed
        = xpraActive.killed ∧
      (xpraCallback xpraActive xpraProc false "listening on port 5002").emitted
        = xpraActive.emitted ++
          [(xpraProc.socketId, .appStream xpraProc.instanceId xpraProc.appKey "xpra"
            ("http://localhost:" ++ "5002"))]) :=
  ⟨⟨by decide, by decide,
      ((C8_latest_registration_wins xpraActive "game" (declaresXpra "game") "s1" "i1" drawHalf
        (some 22) xpraProc "listening on port 5002").1 (by decide)).1⟩,
    ⟨by decide,
      (C8_latest_registration_wins xpraActive "game" (declaresNul "game") "s1" "i1" drawHalf
        (some 22) xpraProc "listening on port 5002").2.1 (by decide)⟩,
    ⟨by decide,
      ((C8_latest_registration_wins xpraActive "editor" (declaresXpra "editor") "s1" "i1"
        drawHalf (some 22) xpraProc "listening on port 5002").2.2.1 (by decide)).1⟩,
    ⟨by decide,
      (C8_latest_registration_wins xpraActive "editor" (declaresNul "editor") "s1" "i1"
        drawHalf (some 22) xpraProc "listening on port 5002").2.2.2.1 (by decide)⟩,
    ⟨by decide,
      (C8_latest_registration_wins xpraActive "editor" (declaresXpra "editor") "s1" "i1"
        drawHalf (some 11) xpraProc "listening on port 5002").2.2.2.2 "5002" (by decide)⟩⟩

/-- Claim C9, as stated, fails: for a `launchSunshine` whose process fails to
launch, the completion callback emits `app:error` and the settling timer emits
`app:stream`; once both have fired, both events have been emitted for `i1`. -/
theorem C9_counterexample_sunshine_failure_emits_both :
    sunshineFirst.2 = some sunshineProc ∧
    (sunshineTimer (sunshineCallback sunshineFirst.1 sunshineProc true)
        sunshineProc).emitted
      = [("s1", .appError "game" "i1"
            "Failed to launch Sunshine. Is Sunshine installed and configured?"),
         ("s1", .appStream "i1" "game" "sunshine" "http://localhost:47989")] ∧
    streamCount "i1" (sunshineTimer (sunshineCallback sunshineFirst.1 sunshineProc true)
        sunshineProc).emitted = 1 ∧
    errorCount "i1" (sunshineTimer (sunshineCallback sunshineFirst.1 sunshineProc true)
        sunshineProc).emitted = 1 := by
  decide

/-- Claim C9, amended. For display backend A the completion callback emits, for
every outcome, exactly one event for the instance that is an `app:stream` or an
`app:error` event. For display backend B, once the completion callback and the
settling timer have fired, in either order, exactly one `app:stream` event has
been emitted for the instance, and exactly one `app:error` event when the
process failed to launch, none when it did not. -/
theorem C9_launch_outcome_events (srv : Server) (p : Proc) (err : Bool) (stdout : String) :
    (streamCount p.instanceId (xpraCallback srv p err stdout).emitted
        + errorCount p.instanceId (xpraCallback srv p err stdout).emitted
      = streamCount p.instanceId srv.emitted + errorCount p.instanceId srv.emitted + 1) ∧
    (streamCount p.instanceId (sunshineTimer (sunshineCallback srv p err) p).emitted
        = streamCount p.instanceId srv.emitted + 1 ∧
      errorCount p.instanceId (sunshineTimer (sunshineCallback srv p err) p).emitted
        = errorCount p.instanceId srv.emitted + (if err then 1 else 0)) ∧
    (streamCount p.instanceId (sunshineCallback (sunshineTimer srv p) p err).emitted
        = streamCount p.instanceId srv.emitted + 1 ∧
      errorCount p.instanceId (sunshineCallback (sunshineTimer srv p) p err).emitted
        = errorCount p.instanceId srv.emitted + (if err then 1 else 0)) := by
  refine ⟨?_, ⟨?_, ?_⟩, ⟨?_, ?_⟩⟩
  · cases err
    · cases hm : matchPort stdout with
      | none =>
        simp [xpraCallback, hm, streamCount, errorCount, List.countP_append, List.countP_cons]
        omega
      | some port =>
        simp [xpraCallback, hm, streamCount, errorCount, List.countP_append, List.countP_cons]
        omega
    · simp [xpraCallback, streamCount, errorCount, List.countP_append, List.countP_cons]
      omega
  · cases err <;>
      simp [sunshineTimer, sunshineCallback, streamCount, List.countP_append, List.countP_cons]
  · cases err <;>
      simp [sunshineTimer, sunshineCallback, errorCount, List.countP_append, List.countP_cons]
  · cases err <;>
      simp [sunshineTimer, sunshineCallback, streamCount, List.countP_append, List.countP_cons]
  · cases err <;>
      simp [sunshineTimer, sunshineCallback, errorCount, List.countP_append, List.countP_cons]

/-- Claim C10. A `native:launch` whose resolved backend is neither `xpra` nor
`sunshine` (an absent one included): exactly one event is emitted, the
`app:error` event with the `appKey`, the `instanceId` and the text
`Unknown stream type: ` followed by the resolved backend; no process is
spawned or signalled, the session registry is unchanged and no callback is
registered. -/
theorem C10_unknown_backend (srv : Server) (readProps : String → Rules) (sid : String)
    (msg : LaunchMsg) (r : RandomDraw) (pid : Option Nat)
    (hx : (resolveRules (readProps msg.appKey) msg).stream ≠ JSVal.str "xpra")
    (hs : (resolveRules (readProps msg.appKey) msg).stream ≠ JSVal.str "sunshine") :
    (nativeLaunch srv readProps sid msg r pid).1.emitted = srv.emitted ++
      [(sid, .appError msg.appKey msg.instanceId
        ("Unknown stream type: " ++ (resolveRules (readProps msg.appKey) msg).stream.template))] ∧
    (nativeLaunch srv readProps sid msg r pid).1.spawned = srv.spawned ∧
    (nativeLaunch srv readProps sid msg r pid).1.killed = srv.killed ∧
    (nativeLaunch srv readProps sid msg r pid).1.nativeSessions = srv.nativeSessions ∧
    (nativeLaunch srv readProps sid msg r pid).1.socketClients = srv.socketClients ∧
    (nativeLaunch srv readProps sid msg r pid).2 = none := by
  simp [nativeLaunch, hx, hs]

/-- Claim C10, witness: a launch without any declared backend and without a
hint, whose error text names `undefined`, and a launch with the hint `vnc`. -/
theorem C10_unknown_backend_witness :
    ((resolveRules (declaresNothing "editor")
        { appKey := "editor", instanceId := "i1", command := .str "gedit",
          stream := .undefined }).stream ≠ JSVal.str "xpra" ∧
      (resolveRules (declaresNothing "editor")
        { appKey := "editor", instanceId := "i1", command := .str "gedit",
          stream := .undefined }).stream ≠ JSVal.str "sunshine") ∧
    (nativeLaunch (oneSocket false) declaresNothing "s1"
        { appKey := "editor", instanceId := "i1", command := .str "gedit",
          stream := .undefined } drawHalf (some 11)).1.emitted
      = (oneSocket false).emitted ++
        [("s1", .appError "editor" "i1" ("Unknown stream type: " ++
          (resolveRules (declaresNothing "editor")
            { appKey := "editor", instanceId := "i1", command := .str "gedit",
              stream := .undefined }).stream.template))] ∧
    (nativeLaunch (oneSocket false) declaresNothing "s1"
        { appKey := "editor", instanceId := "i1", command := .str "gedit",
          stream := .undefined } drawHalf (some 11)).1.emitted
      = [("s1", .appError "editor" "i1" "Unknown stream type: undefined")] ∧
    (nativeLaunch (oneSocket false) declaresXpra "s1"
        { appKey := "editor", instanceId := "i1", command := .str "gedit",
          stream := .str "vnc" } drawHalf (some 11)).1.spawned = (oneSocket false).spawned :=
  ⟨⟨by decide, by decide⟩,
    (C10_unknown_backend (oneSocket false) declaresNothing "s1"
      { appKey := "editor", instanceId := "i1", command := .str "gedit", stream := .undefined }
      drawHalf (some 11) (by decide) (by decide)).1,
    by decide,
    (C10_unknown_backend (oneSocket false) declaresXpra "s1"
      { appKey := "editor", instanceId := "i1", command := .str "gedit", stream := .str "vnc" }
      drawHalf (some 11) (by decide) (by decide)).2.1⟩

end FrutigerServer
